import Mathlib

/-!
Shallow embedding of the aggregation and classification engine of
`src/analytics_service.py`, and proofs about it.

Dates are modelled as day ordinals (days since 1970-01-01); SQL/pandas row
sets are Lean lists of record structures, one structure per query shape.
Machine floats are modelled as rationals; `round(x, 2)` is rounding of a
rational to two decimal places.
-/

set_option allowUnsafeReducibility true
attribute [semireducible] Rat.mul Rat.inv Rat.add Rat.sub

namespace AnalyticsService

/-- The attendance status enum: the four values of `asistencias.estado`
(`PRESENTE`, `AUSENTE`, `TARDANZA`, `JUSTIFICADO`). -/
inductive Estado where
  | presente
  | ausente
  | tardanza
  | justificado
deriving DecidableEq

/-- Models `estado IN (PRESENTE, TARDANZA)`: the "counted as attending" test
used by every percentage computation in the service. -/
def asistio : Estado → Bool
  | .presente => true
  | .tardanza => true
  | .ausente => false
  | .justificado => false

/-- Rounding a rational to two decimal places, modelling `round(x, 2)`. -/
def round2 (q : ℚ) : ℚ := ((round (q * 100) : ℤ) : ℚ) / 100

/-- The percentage expression exactly as the source sites write it:
`round(att / total * 100, 2)`, with no guard on `total`. -/
def codePct (att total : ℕ) : ℚ := round2 ((att : ℚ) / (total : ℚ) * 100)

/-- The §3 spec formula for an attendance percentage: `round(att/total*100, 2)`,
defined as `0` when `total = 0`. Used to compare the computations of the code
against the words of the spec. -/
def pctSpec (att total : ℕ) : ℚ :=
  if total = 0 then 0 else round2 ((att : ℚ) / (total : ℚ) * 100)

/-- The four statuses in the alphabetical order of their SQL string values
(`AUSENTE`, `JUSTIFICADO`, `PRESENTE`, `TARDANZA`), the column order pandas
`unstack` produces. -/
def estadoOrden : List Estado := [.ausente, .justificado, .presente, .tardanza]

/-- Lexicographic comparison of character lists by code point, used to model
the ascending group-key order pandas `groupby` applies to string keys. -/
def charsLe : List Char → List Char → Bool
  | [], _ => true
  | _ :: _, [] => false
  | a :: as, b :: bs =>
    if a.toNat < b.toNat then true
    else if b.toNat < a.toNat then false
    else charsLe as bs

/-- Lexicographic string comparison by code point. -/
def strLe (a b : String) : Bool := charsLe a.data b.data

/-! ### §4.1 General attendance distribution (`analisis_asistencia_general`) -/

/-- One row of the §4.1 window query: date, status, subject (the other
selected columns are not consumed by the computation). -/
structure RowGeneral where
  fecha : ℕ
  estado : Estado
  materia : String
deriving DecidableEq

/-- Does status `e` occur anywhere in the row set? (Whether `unstack`
produces a column for `e` at all.) -/
def statusOccurs (rows : List RowGeneral) (e : Estado) : Bool :=
  rows.any (fun r => r.estado == e)

/-- Models `df[estado].value_counts().to_dict()`: count per occurring status,
ordered by descending count. -/
def valueCounts (rows : List RowGeneral) : List (Estado × ℕ) :=
  List.insertionSort (fun a b : Estado × ℕ => b.2 ≤ a.2)
    ((estadoOrden.filter (fun e => statusOccurs rows e)).map
      (fun e => (e, rows.countP (fun r => r.estado == e))))

/-- The distinct dates of the window, ascending: the index of
`df.groupby([fecha, estado]).size().unstack(fill_value=0)`. -/
def fechasOrdenadas (rows : List RowGeneral) : List ℕ :=
  List.insertionSort (· ≤ ·) ((rows.map (fun r => r.fecha)).dedup)

/-- Models `tendencia.get(E, pd.Series()).tolist()`: when the status occurs somewhere
in the window, `unstack(fill_value=0)` has a column for it, giving one
(possibly zero) count per distinct date; when the status occurs nowhere the
default empty series yields the empty list. -/
def serieEstado (rows : List RowGeneral) (e : Estado) : List ℕ :=
  if statusOccurs rows e then
    (fechasOrdenadas rows).map
      (fun d => rows.countP (fun r => r.fecha == d && r.estado == e))
  else []

/-- The `tendencia_dict` structure of §4.1. -/
structure TendenciaDiaria where
  fechas : List ℕ
  presente : List ℕ
  ausente : List ℕ
  tardanza : List ℕ
  justificado : List ℕ
deriving DecidableEq

/-- Builds `tendencia_dict` from the window rows. This gives the contents of
the dict on the path where `tendencia.index.strftime` succeeds, which
requires a datetime-dtyped (hence non-empty) `fecha` column; on an empty
window that call raises instead, modelled in `respuestaGeneral` below. -/
def tendenciaDiaria (rows : List RowGeneral) : TendenciaDiaria where
  fechas := fechasOrdenadas rows
  presente := serieEstado rows .presente
  ausente := serieEstado rows .ausente
  tardanza := serieEstado rows .tardanza
  justificado := serieEstado rows .justificado

/-- The per-status count sequence of a `tendencia_dict`. -/
def TendenciaDiaria.serie (t : TendenciaDiaria) : Estado → List ℕ
  | .presente => t.presente
  | .ausente => t.ausente
  | .tardanza => t.tardanza
  | .justificado => t.justificado

/-- The distinct subjects of the window, ascending: the group keys of
`df.groupby(materia)`. -/
def materiasDe (rows : List RowGeneral) : List String :=
  List.insertionSort (fun a b => strLe a b = true)
    ((rows.map (fun r => r.materia)).dedup)

/-- Models `df.groupby(materia).apply(lambda x: (x[estado].isin([PRESENTE,
TARDANZA]).sum() / len(x) * 100)).round(2).to_dict()`. -/
def asistenciaPorMateria (rows : List RowGeneral) : List (String × ℚ) :=
  (materiasDe rows).map (fun m =>
    let x := rows.filter (fun r => r.materia == m)
    (m, codePct (x.countP (fun r => asistio r.estado)) x.length))

/-- The §4.1 response body: the three keys are structure fields, so they are
present in every result. -/
structure GeneralResult where
  estado_general : List (Estado × ℕ)
  tendencia_diaria : TendenciaDiaria
  asistencia_por_materia : List (String × ℚ)
deriving DecidableEq

/-- Models the §4.1 aggregation body of `analisis_asistencia_general`, as a
function of the fetched window rows, on the path where every step succeeds. -/
def analisisAsistenciaGeneral (rows : List RowGeneral) : GeneralResult where
  estado_general := valueCounts rows
  tendencia_diaria := tendenciaDiaria rows
  asistencia_por_materia := asistenciaPorMateria rows

/-- The §4.1 endpoint outcome: the success body, or the 500 error payload the
`except` handler produces from a raised exception message. -/
inductive GeneralResponse where
  | ok (cuerpo : GeneralResult)
  | error500 (mensaje : String)
deriving DecidableEq

/-- Models the full `analisis_asistencia_general` request handler, error path
included. With zero window rows, `pd.read_sql` builds an all-object-dtype
frame, the unstacked groupby index is a plain empty `Index`, and
`tendencia.index.strftime` raises `AttributeError`; the handler catches it
and returns the 500 error payload. With at least one row the `fecha` column
is datetime-dtyped, every step succeeds, and the three-key body is
returned. -/
def respuestaGeneral (rows : List RowGeneral) : GeneralResponse :=
  if rows.isEmpty then
    .error500 ("Index object has no attribute strftime")
  else .ok (analisisAsistenciaGeneral rows)

/-! ### ISO calendar weeks

Model of `pd.to_datetime(fecha).dt.isocalendar().week` over day ordinals
(days since 1970-01-01). -/

/-- Gregorian leap-year test. -/
def isLeap (y : ℕ) : Bool := (y % 4 == 0 && y % 100 != 0) || y % 400 == 0

/-- Number of days in Gregorian year `y`. -/
def daysInYear (y : ℕ) : ℕ := if isLeap y then 366 else 365

/-- Resolves a count of days from the start of year `y` into the year the day
falls in and the zero-based day of that year. The first argument is fuel
bounding the number of year steps; any fuel above `d` suffices. -/
def yearAndDoy : ℕ → ℕ → ℕ → ℕ × ℕ
  | 0, y, d => (y, d)
  | fuel + 1, y, d =>
    if d < daysInYear y then (y, d) else yearAndDoy fuel (y + 1) (d - daysInYear y)

/-- ISO weekday of a day ordinal, Monday = 1 .. Sunday = 7
(day 0, 1970-01-01, was a Thursday). -/
def isoWeekday (d : ℕ) : ℕ := (d + 3) % 7 + 1

/-- ISO-8601 week number of a day ordinal: the Thursday of the week containing
`d` fixes the ISO year, whose weeks are numbered from 1 starting at its first
Thursday. -/
def isoWeek (d : ℕ) : ℕ :=
  let jueves := d + 4 - isoWeekday d
  (yearAndDoy (jueves + 1) 1970 jueves).2 / 7 + 1

/-! ### §4.2 Per-group student rollup (`analisis_asistencia_grupo`) -/

/-- One row of the §4.2 group query: date, status, student name (the email
column is not consumed by the computation). -/
structure RowGrupo where
  fecha : ℕ
  estado : Estado
  estudiante : String
deriving DecidableEq

/-- The per-student statistics block shared by §4.2 and §4.3. -/
structure EstuStats where
  total_clases : ℕ
  presentes : ℕ
  ausentes : ℕ
  tardanzas : ℕ
  justificados : ℕ
  porcentaje_asistencia : ℚ
deriving DecidableEq

/-- The lambda aggregating the status series of one student in §4.2 (and the
`stats` block of §4.3 applied to all rows of a student). -/
def estuStatsDe (evs : List Estado) : EstuStats where
  total_clases := evs.length
  presentes := evs.countP (· == .presente)
  ausentes := evs.countP (· == .ausente)
  tardanzas := evs.countP (· == .tardanza)
  justificados := evs.countP (· == .justificado)
  porcentaje_asistencia := codePct (evs.countP asistio) evs.length

/-- The distinct student names of the group rows, ascending: the group keys
of `df.groupby(estudiante)`. -/
def estudiantesDe (rows : List RowGrupo) : List String :=
  List.insertionSort (fun a b => strLe a b = true)
    ((rows.map (fun r => r.estudiante)).dedup)

/-- Models the per-student aggregation `df.groupby(estudiante).agg(...)` of
the §4.2 code. -/
def estadisticasEstudiantes (rows : List RowGrupo) : List (String × EstuStats) :=
  (estudiantesDe rows).map (fun s =>
    (s, estuStatsDe ((rows.filter (fun r => r.estudiante == s)).map
      (fun r => r.estado))))

/-- The statuses for which `unstack` produces a column: those occurring
anywhere in the group rows, in SQL-string alphabetical order. -/
def estadosPresentesGrupo (rows : List RowGrupo) : List Estado :=
  estadoOrden.filter (fun e => rows.any (fun r => r.estado == e))

/-- The distinct ISO week numbers of the group rows, ascending. -/
def semanasDe (rows : List RowGrupo) : List ℕ :=
  List.insertionSort (· ≤ ·) ((rows.map (fun r => isoWeek r.fecha)).dedup)

/-- Models `df.groupby([semana, estado]).size().unstack(fill_value=0)
.to_dict(index)`: one entry per ISO week occurring in the rows; each entry
maps every status occurring anywhere in the rows to its (possibly zero) count
within that week. -/
def tendenciaSemanal (rows : List RowGrupo) : List (ℕ × List (Estado × ℕ)) :=
  (semanasDe rows).map (fun w =>
    (w, (estadosPresentesGrupo rows).map (fun e =>
      (e, rows.countP (fun r => isoWeek r.fecha == w && r.estado == e)))))

/-- The §4.2 response: either the distinct "no data" message or the two
statistics blocks. -/
inductive GrupoResult where
  | sinDatos (mensaje : String)
  | datos (estadisticas_estudiantes : List (String × EstuStats))
      (tendencia_semanal : List (ℕ × List (Estado × ℕ)))
deriving DecidableEq

/-- Models `analisis_asistencia_grupo`, as a function of the fetched group
rows. -/
def analisisAsistenciaGrupo (rows : List RowGrupo) : GrupoResult :=
  if rows.isEmpty then .sinDatos ("No hay datos de asistencia para este grupo")
  else .datos (estadisticasEstudiantes rows) (tendenciaSemanal rows)

/-- The weekly-trend component of a §4.2 result (`[]` for the "no data"
case), used to state properties of the trend. -/
def GrupoResult.semanal : GrupoResult → List (ℕ × List (Estado × ℕ))
  | .sinDatos _ => []
  | .datos _ t => t

/-! ### §4.3 Per-student subject rollup (`analisis_asistencia_estudiante`) -/

/-- One row of the §4.3 student query: date, status, subject (the group-code
column is not consumed by the computation). -/
structure RowEstudiante where
  fecha : ℕ
  estado : Estado
  materia : String
deriving DecidableEq

/-- The per-subject block of §4.3. -/
structure MateriaStats where
  total : ℕ
  asistencias : ℕ
  porcentaje : ℚ
deriving DecidableEq

/-- The distinct subjects of the student rows, ascending: the group keys of
`df.groupby(materia)`. -/
def materiasEst (rows : List RowEstudiante) : List String :=
  List.insertionSort (fun a b => strLe a b = true)
    ((rows.map (fun r => r.materia)).dedup)

/-- Models the per-subject aggregation `df.groupby(materia).apply(...)` of the
§4.3 code. -/
def porMateria (rows : List RowEstudiante) : List (String × MateriaStats) :=
  (materiasEst rows).map (fun m =>
    let x := rows.filter (fun r => r.materia == m)
    (m, { total := x.length
          asistencias := x.countP (fun r => asistio r.estado)
          porcentaje := codePct (x.countP (fun r => asistio r.estado)) x.length }))

/-- The §4.3 response: either the distinct "no data" message or the two
statistics blocks. -/
inductive EstudianteResult where
  | sinDatos (mensaje : String)
  | datos (estadisticas_generales : EstuStats)
      (por_materia : List (String × MateriaStats))
deriving DecidableEq

/-- Models `analisis_asistencia_estudiante`, as a function of the fetched
student rows. -/
def analisisAsistenciaEstudiante (rows : List RowEstudiante) : EstudianteResult :=
  if rows.isEmpty then .sinDatos ("No hay datos de asistencia para este estudiante")
  else .datos (estuStatsDe (rows.map (fun r => r.estado))) (porMateria rows)

/-! ### §4.4 Per-teacher group report (`reporte_profesor`) -/

/-- One row of the teacher group query: group id, code, subject and active
enrollment count. -/
structure Grupo where
  id : ℕ
  codigo : String
  materia : String
  total_estudiantes : ℕ
deriving DecidableEq

/-- One entry of the `grupos` list of the §4.4 response. -/
structure GrupoReporte where
  grupo_id : ℕ
  codigo : String
  materia : String
  total_estudiantes : ℕ
  estadisticas_asistencia : List (Estado × ℕ)
  porcentaje_asistencia : ℚ
deriving DecidableEq

/-- The §4.4 response body. -/
structure ReporteProfesor where
  grupos : List GrupoReporte
  total_grupos : ℕ
deriving DecidableEq

/-- The per-group attendance query `SELECT estado, COUNT(*) ... GROUP BY
estado`, as the `asistencia_data` dict: one entry per status occurring in the
events of the group. -/
def conteoEstados (evs : List Estado) : List (Estado × ℕ) :=
  (estadoOrden.filter (fun e => evs.any (fun x => x == e))).map
    (fun e => (e, evs.countP (· == e)))

/-- Models `asistencia_data.get(E, 0)`: the count recorded for a status, `0`
when the
status has no entry. -/
def lookupCount (l : List (Estado × ℕ)) (e : Estado) : ℕ :=
  ((l.find? (fun p => p.1 == e)).map (fun p => p.2)).getD 0

/-- One iteration of the `reporte_profesor` loop: the per-group aggregate, or
`none` when the attendance query of the group comes back empty (the append happens
under `if not df_asistencia.empty`, so such a group produces no entry). -/
def reporteGrupo (eventos : List (ℕ × Estado)) (g : Grupo) :
    Option GrupoReporte :=
  let evs := (eventos.filter (fun ev => ev.1 == g.id)).map (fun ev => ev.2)
  if evs.isEmpty then none
  else
    let total := evs.length
    let data := conteoEstados evs
    let presentes := lookupCount data .presente + lookupCount data .tardanza
    let porcentaje := if 0 < total then codePct presentes total else 0
    some { grupo_id := g.id
           codigo := g.codigo
           materia := g.materia
           total_estudiantes := g.total_estudiantes
           estadisticas_asistencia := data
           porcentaje_asistencia := porcentaje }

/-- Models `reporte_profesor`, as a function of the assigned groups of the
teacher and of
the attendance events `(grupo_id, estado)` the per-group queries draw from. -/
def reporteProfesor (grupos : List Grupo) (eventos : List (ℕ × Estado)) :
    ReporteProfesor :=
  let resultados := grupos.filterMap (reporteGrupo eventos)
  { grupos := resultados, total_grupos := resultados.length }

/-! ### §4.5 Dropout-risk classification (`prediccion_desercion`) -/

/-- One joined row of the §4.5 window query, before grouping. -/
structure RowPred where
  estudiante_id : ℕ
  nombre_usuario : String
  email : String
  estado : Estado
deriving DecidableEq

/-- The `GROUP BY u.id, u.nombre_usuario, u.email` key. -/
structure PredKey where
  estudiante_id : ℕ
  nombre_usuario : String
  email : String
deriving DecidableEq

/-- The grouping key of a §4.5 row. -/
def RowPred.key (r : RowPred) : PredKey :=
  { estudiante_id := r.estudiante_id
    nombre_usuario := r.nombre_usuario
    email := r.email }

/-- The four risk labels of `pd.cut`. -/
inductive Riesgo where
  | critico
  | alto
  | medio
  | bajo
deriving DecidableEq

/-- Models `pd.cut(p, bins=[0, 50, 65, 75, 100], labels=[CRITICO, ALTO, MEDIO,
BAJO])`: four left-open right-closed intervals; a value lying in none of
them (in particular exactly `0`) gets no label (`NaN`). -/
def nivelRiesgo (p : ℚ) : Option Riesgo :=
  if 0 < p ∧ p ≤ 50 then some .critico
  else if 50 < p ∧ p ≤ 65 then some .alto
  else if 65 < p ∧ p ≤ 75 then some .medio
  else if 75 < p ∧ p ≤ 100 then some .bajo
  else none

/-- One record of the `estudiantes_en_riesgo` list. `nivel_riesgo` is `none`
until the `pd.cut` column is added. -/
structure EstudianteRiesgo where
  estudiante_id : ℕ
  nombre_usuario : String
  email : String
  ausencias : ℕ
  total_clases : ℕ
  porcentaje_asistencia : ℚ
  nivel_riesgo : Option Riesgo
deriving DecidableEq

/-- The aggregate the §4.5 SQL computes for one grouping key. -/
def statsDeKey (rows : List RowPred) (k : PredKey) : EstudianteRiesgo :=
  let evs := (rows.filter (fun r => r.key == k)).map (fun r => r.estado)
  { estudiante_id := k.estudiante_id
    nombre_usuario := k.nombre_usuario
    email := k.email
    ausencias := evs.countP (· == .ausente)
    total_clases := evs.length
    porcentaje_asistencia := codePct (evs.countP asistio) evs.length
    nivel_riesgo := none }

/-- The §4.5 response body. -/
structure PrediccionResult where
  estudiantes_en_riesgo : List EstudianteRiesgo
  total_en_riesgo : ℕ
deriving DecidableEq

/-- The grouping keys of the window rows, in order of first appearance. -/
def clavesDe (rows : List RowPred) : List PredKey := (rows.map RowPred.key).dedup

/-- The per-student aggregate rows the §4.5 SQL produces before `HAVING`. -/
def statsDe (rows : List RowPred) : List EstudianteRiesgo :=
  (clavesDe rows).map (statsDeKey rows)

/-- Models `HAVING porcentaje_asistencia < 75`. -/
def retenidosDe (rows : List RowPred) : List EstudianteRiesgo :=
  (statsDe rows).filter (fun s => decide (s.porcentaje_asistencia < 75))

/-- Adds the `pd.cut` risk column to one record. -/
def etiqueta (s : EstudianteRiesgo) : EstudianteRiesgo :=
  { s with nivel_riesgo := nivelRiesgo s.porcentaje_asistencia }

/-- Models `prediccion_desercion`, as a function of the joined window rows:
group
by student key, aggregate, keep percentages `< 75` (`HAVING`), sort ascending
by percentage (`ORDER BY`, modelled as a stable sort), then label with
`pd.cut`. -/
def prediccionDesercion (rows : List RowPred) : PrediccionResult :=
  let ordenados := List.insertionSort
    (fun a b => a.porcentaje_asistencia ≤ b.porcentaje_asistencia) (retenidosDe rows)
  let etiquetados := ordenados.map etiqueta
  { estudiantes_en_riesgo := etiquetados, total_en_riesgo := etiquetados.length }

/-! ### Helper lemmas -/

theorem round_mono_rat {x y : ℚ} (h : x ≤ y) : round x ≤ round y := by
  rw [round_eq, round_eq]
  exact Int.floor_mono (by linarith)

theorem round2_nonneg {q : ℚ} (h : 0 ≤ q) : 0 ≤ round2 q := by
  unfold round2
  have h1 : (0 : ℤ) ≤ round (q * 100) := by
    have := round_mono_rat (x := 0) (y := q * 100) (by nlinarith)
    simpa using this
  have h2 : (0 : ℚ) ≤ ((round (q * 100) : ℤ) : ℚ) := by exact_mod_cast h1
  linarith

theorem round2_le_100 {q : ℚ} (h : q ≤ 100) : round2 q ≤ 100 := by
  unfold round2
  have h1 : round (q * 100) ≤ round (((10000 : ℤ) : ℚ)) :=
    round_mono_rat (by push_cast; nlinarith)
  rw [round_intCast] at h1
  have h2 : ((round (q * 100) : ℤ) : ℚ) ≤ 10000 := by exact_mod_cast h1
  linarith

theorem codePct_eq_pctSpec (a t : ℕ) : codePct a t = pctSpec a t := by
  unfold codePct pctSpec
  rcases Nat.eq_zero_or_pos t with h | h
  · subst h
    simp [round2]
  · rw [if_neg (Nat.pos_iff_ne_zero.mp h)]

theorem codePct_nonneg (a t : ℕ) : 0 ≤ codePct a t := by
  unfold codePct
  apply round2_nonneg
  positivity

theorem codePct_le_100 {a t : ℕ} (h : a ≤ t) : codePct a t ≤ 100 := by
  unfold codePct
  apply round2_le_100
  rcases Nat.eq_zero_or_pos t with h0 | h0
  · subst h0
    have : a = 0 := Nat.le_zero.mp h
    subst this
    norm_num
  · have ht : (0 : ℚ) < t := by exact_mod_cast h0
    have h1 : (a : ℚ) / t ≤ 1 := by
      rw [div_le_one ht]
      exact_mod_cast h
    nlinarith

theorem codePct_in_range {a t : ℕ} (h : a ≤ t) :
    0 ≤ codePct a t ∧ codePct a t ≤ 100 :=
  ⟨codePct_nonneg a t, codePct_le_100 h⟩

theorem countP_asistio (l : List Estado) :
    l.countP asistio = l.countP (· == .presente) + l.countP (· == .tardanza) := by
  induction l with
  | nil => rfl
  | cons a l ih => cases a <;> simp [List.countP_cons, asistio, ih] <;> omega

theorem lookup_map_cnt {κ : Type} [DecidableEq κ] (cnt : κ → ℕ) (e : κ)
    (ks : List κ) :
    ((((ks.map (fun k => (k, cnt k))).find? (fun p => p.1 == e)).map
      (fun p => p.2)).getD 0) = if e ∈ ks then cnt e else 0 := by
  induction ks with
  | nil => simp
  | cons a ks ih =>
    by_cases h : a = e
    · subst h
      simp [List.find?]
    · have hb : (a == e) = false := beq_eq_false_iff_ne.mpr h
      simp only [List.map_cons, List.find?, hb, List.mem_cons]
      rw [ih]
      have : ¬ e = a := fun he => h he.symm
      simp [this]

theorem lookupCount_conteoEstados (evs : List Estado) (e : Estado) :
    lookupCount (conteoEstados evs) e = evs.countP (· == e) := by
  unfold lookupCount conteoEstados
  rw [lookup_map_cnt]
  by_cases h : e ∈ estadoOrden.filter (fun e' => evs.any (fun x => x == e'))
  · rw [if_pos h]
  · rw [if_neg h]
    rw [List.mem_filter] at h
    push_neg at h
    have he : e ∈ estadoOrden := by cases e <;> simp [estadoOrden]
    have hocc := h he
    symm
    rw [List.countP_eq_zero]
    intro a ha hbeq
    have hne : e ∉ evs := by simpa using hocc
    have hae : a = e := by simpa using hbeq
    exact hne (hae ▸ ha)

theorem mem_prediccion_exists {rows : List RowPred} {s : EstudianteRiesgo}
    (hs : s ∈ (prediccionDesercion rows).estudiantes_en_riesgo) :
    ∃ k ∈ clavesDe rows, s = etiqueta (statsDeKey rows k) ∧
      (statsDeKey rows k).porcentaje_asistencia < 75 := by
  unfold prediccionDesercion at hs
  simp only [List.mem_map] at hs
  obtain ⟨u, hu, rfl⟩ := hs
  rw [List.mem_insertionSort] at hu
  unfold retenidosDe at hu
  rw [List.mem_filter] at hu
  obtain ⟨hu1, hu2⟩ := hu
  unfold statsDe at hu1
  rw [List.mem_map] at hu1
  obtain ⟨k, hk, rfl⟩ := hu1
  exact ⟨k, hk, rfl, by simpa using hu2⟩

theorem etiqueta_pct (s : EstudianteRiesgo) :
    (etiqueta s).porcentaje_asistencia = s.porcentaje_asistencia := rfl

theorem etiqueta_nivel (s : EstudianteRiesgo) :
    (etiqueta s).nivel_riesgo = nivelRiesgo s.porcentaje_asistencia := rfl

theorem nivelRiesgo_ne_bajo {p : ℚ} (h : p < 75) : nivelRiesgo p ≠ some .bajo := by
  unfold nivelRiesgo
  split_ifs with h1 h2 h3 h4
  · simp
  · simp
  · simp
  · exact absurd h4.1 (by linarith)
  · simp

theorem nivelRiesgo_zero : nivelRiesgo 0 = none := by norm_num [nivelRiesgo]

theorem countP_and_comm {α : Type} (l : List α) (p q : α → Bool) :
    l.countP (fun a => q a && p a) = l.countP (fun a => p a && q a) := by
  induction l with
  | nil => rfl
  | cons a l ih => simp [List.countP_cons, ih, Bool.and_comm]

theorem codePct_core {α : Type} (l : List α) (p q : α → Bool) :
    (codePct ((l.filter p).countP q) (l.filter p).length
        = pctSpec (l.countP (fun a => p a && q a)) (l.countP p))
    ∧ 0 ≤ codePct ((l.filter p).countP q) (l.filter p).length
    ∧ codePct ((l.filter p).countP q) (l.filter p).length ≤ 100 := by
  have h1 : (l.filter p).countP q = l.countP (fun a => p a && q a) := by
    rw [List.countP_filter]
    exact countP_and_comm l p q
  have h2 : (l.filter p).length = l.countP p :=
    (List.countP_eq_length_filter p l).symm
  refine ⟨?_, codePct_nonneg _ _, codePct_le_100 (List.countP_le_length q)⟩
  rw [h1, h2]
  exact codePct_eq_pctSpec _ _

theorem estuStatsDe_pct (evs : List Estado) :
    (estuStatsDe evs).porcentaje_asistencia
      = codePct (evs.countP asistio) evs.length := rfl

/-! ### Claim theorems -/

/-- C7: on zero qualifying rows, the per-group rollup (§4.2) and the
per-student rollup (§4.3) each return their designated "no data" message, not
a zero-filled statistics structure and not an error. -/
theorem c7_empty_input_signals :
    analisisAsistenciaGrupo []
        = .sinDatos ("No hay datos de asistencia para este grupo")
      ∧ analisisAsistenciaEstudiante []
        = .sinDatos ("No hay datos de asistencia para este estudiante") :=
  ⟨rfl, rfl⟩

/-- C8: at the failing input — a window with zero events — the §4.1 endpoint
does not return the three-key zero-filled body the claim describes: the
`strftime` call on the empty object-dtype index raises, and the request
yields the 500 error payload instead of a success body. -/
theorem c8_empty_window_errors :
    respuestaGeneral []
      = .error500 ("Index object has no attribute strftime") := rfl

/-- C9: each of the aggregate operations is a pure function of its fetched
row set — running it twice on the same rows yields identical output. -/
theorem c9_deterministic :
    (∀ rows : List RowGeneral,
        analisisAsistenciaGeneral rows = analisisAsistenciaGeneral rows)
      ∧ (∀ rows : List RowGrupo,
        analisisAsistenciaGrupo rows = analisisAsistenciaGrupo rows)
      ∧ (∀ rows : List RowEstudiante,
        analisisAsistenciaEstudiante rows = analisisAsistenciaEstudiante rows)
      ∧ (∀ (grupos : List Grupo) (eventos : List (ℕ × Estado)),
        reporteProfesor grupos eventos = reporteProfesor grupos eventos)
      ∧ (∀ rows : List RowPred,
        prediccionDesercion rows = prediccionDesercion rows) :=
  ⟨fun _ => rfl, fun _ => rfl, fun _ => rfl, fun _ _ => rfl, fun _ => rfl⟩

/-- C1 counterexample: a teacher with exactly one assigned group whose
attendance query returns no events gets a report with zero entries and a
reported total of zero, not a one-entry sequence with zero-valued
statistics. -/
theorem c1_counterexample :
    (reporteProfesor
        [{ id := 1, codigo := "G1", materia := "M", total_estudiantes := 5 }]
        []).grupos.length = 0
      ∧ (reporteProfesor
        [{ id := 1, codigo := "G1", materia := "M", total_estudiantes := 5 }]
        []).total_grupos = 0
      ∧ ([{ id := 1, codigo := "G1", materia := "M", total_estudiantes := 5 }] :
        List Grupo).length = 1 := by
  decide

/-- C1 amended: the §4.4 report contains one entry per assigned group that
has at least one attendance event — groups with zero events are skipped — and
the reported total group count equals the length of that sequence. -/
theorem c1_amended_report_length (grupos : List Grupo)
    (eventos : List (ℕ × Estado)) :
    (reporteProfesor grupos eventos).grupos.length
        = (grupos.filter (fun g => eventos.any (fun ev => ev.1 == g.id))).length
      ∧ (reporteProfesor grupos eventos).total_grupos
        = (reporteProfesor grupos eventos).grupos.length := by
  refine ⟨?_, rfl⟩
  show (grupos.filterMap (reporteGrupo eventos)).length = _
  rw [List.length_filterMap_eq_countP, ← List.countP_eq_length_filter]
  apply List.countP_congr
  intro g hg
  cases h : eventos.filter (fun ev => ev.1 == g.id) with
  | nil =>
    have hall := List.filter_eq_nil_iff.mp h
    simp only [reporteGrupo, h, List.map_nil, List.isEmpty_nil, if_pos,
      Option.isSome_none, List.any_eq_true]
    constructor
    · intro hfalse
      exact absurd hfalse (by simp)
    · rintro ⟨ev, hev, hbeq⟩
      exact absurd hbeq (hall ev hev)
  | cons hd tl =>
    have hmem : hd ∈ eventos.filter (fun ev => ev.1 == g.id) := by
      rw [h]
      exact List.mem_cons_self hd tl
    rw [List.mem_filter] at hmem
    simp only [reporteGrupo, h, List.map_cons, List.isEmpty_cons,
      Option.isSome_some, List.any_eq_true]
    constructor
    · intro _
      exact ⟨hd, hmem.1, hmem.2⟩
    · intro _
      simp

/-- C2 counterexample: in a one-row window whose only event is `PRESENTE`,
the `ausente` sequence of the daily trend is empty while `fechas` has one
entry — the five sequences of §4.1 are not all of equal length when a status
occurs nowhere in the window. -/
theorem c2_counterexample :
    ¬ ((analisisAsistenciaGeneral
          [{ fecha := 0, estado := .presente, materia := "M" }]
        ).tendencia_diaria.ausente.length
        = (analisisAsistenciaGeneral
          [{ fecha := 0, estado := .presente, materia := "M" }]
        ).tendencia_diaria.fechas.length) := by
  decide

/-- C2 amended: for every status that occurs at least once in the window, its
daily-trend sequence has the same length as `fechas` and is index-aligned
with it — position `i` holds the count of that status on `fechas[i]`, with
`0` for a date on which the status has no events; a status occurring nowhere
in the window instead yields the empty sequence. -/
theorem c2_amended_daily_trend (rows : List RowGeneral) (e : Estado) :
    (statusOccurs rows e = true →
      ((analisisAsistenciaGeneral rows).tendencia_diaria.serie e).length
          = (analisisAsistenciaGeneral rows).tendencia_diaria.fechas.length
        ∧ ∀ i : ℕ,
          ((analisisAsistenciaGeneral rows).tendencia_diaria.serie e)[i]?
            = ((analisisAsistenciaGeneral rows).tendencia_diaria.fechas[i]?).map
                (fun d => rows.countP (fun r => r.fecha == d && r.estado == e)))
      ∧ (statusOccurs rows e = false →
        (analisisAsistenciaGeneral rows).tendencia_diaria.serie e = []) := by
  have hserie : (analisisAsistenciaGeneral rows).tendencia_diaria.serie e
      = serieEstado rows e := by
    cases e <;> rfl
  have hfech : (analisisAsistenciaGeneral rows).tendencia_diaria.fechas
      = fechasOrdenadas rows := rfl
  constructor
  · intro h
    rw [hserie, hfech]
    unfold serieEstado
    rw [if_pos h]
    exact ⟨List.length_map _ _, fun i => List.getElem?_map _ _ i⟩
  · intro h
    rw [hserie]
    unfold serieEstado
    rw [if_neg]
    rw [h]
    exact Bool.false_ne_true

/-- C2 witness: at a concrete two-date window where `AUSENTE` occurs only on
the second date, the `ausente` sequence matches `fechas` in length and holds
`0` at index 0. -/
theorem c2_amended_daily_trend_witness :
    ((analisisAsistenciaGeneral
        [{ fecha := 0, estado := .presente, materia := "M" },
         { fecha := 1, estado := .ausente, materia := "M" }]
      ).tendencia_diaria.serie .ausente).length
        = (analisisAsistenciaGeneral
          [{ fecha := 0, estado := .presente, materia := "M" },
           { fecha := 1, estado := .ausente, materia := "M" }]
        ).tendencia_diaria.fechas.length
      ∧ ((analisisAsistenciaGeneral
          [{ fecha := 0, estado := .presente, materia := "M" },
           { fecha := 1, estado := .ausente, materia := "M" }]
        ).tendencia_diaria.serie .ausente)[0]? = some 0 := by
  have h := (c2_amended_daily_trend
    [{ fecha := 0, estado := .presente, materia := "M" },
     { fecha := 1, estado := .ausente, materia := "M" }] .ausente).1 (by decide)
  exact ⟨h.1, (h.2 0).trans (by decide)⟩

/-- C3 counterexample: in a group with one `PRESENTE` event in ISO week 1 and
one `AUSENTE` event in ISO week 2, the entry of each week also reports the status
it has zero events of — the weekly trend is not restricted to statuses with
nonzero count per week. -/
theorem c3_counterexample :
    ¬ (∀ wm ∈ (analisisAsistenciaGrupo
          [{ fecha := 0, estado := .presente, estudiante := "s" },
           { fecha := 7, estado := .ausente, estudiante := "s" }]).semanal,
        ∀ en ∈ wm.2, en.2 ≠ 0) := by
  decide

/-- C3 amended: the weekly trend has one entry per ISO calendar week with at
least one event; the entry of each week maps exactly the statuses occurring
somewhere in the row set of the group (not only those nonzero in that week) to
their count for that week, zero counts included. -/
theorem c3_amended_weekly_trend (rows : List RowGrupo) :
    (rows ≠ [] →
        (analisisAsistenciaGrupo rows).semanal = tendenciaSemanal rows)
      ∧ (∀ w : ℕ, w ∈ (tendenciaSemanal rows).map Prod.fst
          ↔ ∃ r ∈ rows, isoWeek r.fecha = w)
      ∧ (∀ wm ∈ tendenciaSemanal rows, ∀ en ∈ wm.2,
          (∃ r ∈ rows, r.estado = en.1)
            ∧ en.2 = rows.countP
                (fun r => isoWeek r.fecha == wm.1 && r.estado == en.1)) := by
  refine ⟨?_, ?_, ?_⟩
  · intro h
    have he : rows.isEmpty = false := List.isEmpty_eq_false.mpr h
    simp [analisisAsistenciaGrupo, he, GrupoResult.semanal]
  · intro w
    have hmf : (tendenciaSemanal rows).map Prod.fst = semanasDe rows := by
      unfold tendenciaSemanal
      rw [List.map_map]
      exact List.map_id _
    rw [hmf]
    unfold semanasDe
    rw [List.mem_insertionSort, List.mem_dedup, List.mem_map]
  · intro wm hwm en hen
    unfold tendenciaSemanal at hwm
    rw [List.mem_map] at hwm
    obtain ⟨w, hw, rfl⟩ := hwm
    rw [List.mem_map] at hen
    obtain ⟨e, he, rfl⟩ := hen
    unfold estadosPresentesGrupo at he
    rw [List.mem_filter] at he
    obtain ⟨-, hany⟩ := he
    rw [List.any_eq_true] at hany
    obtain ⟨r, hr, hre⟩ := hany
    exact ⟨⟨r, hr, by simpa using hre⟩, rfl⟩

/-- C3 witness: at the concrete two-week group row set, the weekly trend of
the §4.2 result equals `tendenciaSemanal`, `AUSENTE` occurs in the rows, and its
week-1 count is the (zero) number of week-1 `AUSENTE` events. -/
theorem c3_amended_weekly_trend_witness :
    (analisisAsistenciaGrupo
        [{ fecha := 0, estado := .presente, estudiante := "s" },
         { fecha := 7, estado := .ausente, estudiante := "s" }]).semanal
      = tendenciaSemanal
        [{ fecha := 0, estado := .presente, estudiante := "s" },
         { fecha := 7, estado := .ausente, estudiante := "s" }]
    ∧ (∃ r ∈ ([{ fecha := 0, estado := .presente, estudiante := "s" },
         { fecha := 7, estado := .ausente, estudiante := "s" }] :
           List RowGrupo), r.estado = Estado.ausente)
    ∧ (0 : ℕ) = ([{ fecha := 0, estado := .presente, estudiante := "s" },
         { fecha := 7, estado := .ausente, estudiante := "s" }] :
           List RowGrupo).countP
        (fun r => isoWeek r.fecha == 1 && r.estado == Estado.ausente) := by
  have h := c3_amended_weekly_trend
    [{ fecha := 0, estado := .presente, estudiante := "s" },
     { fecha := 7, estado := .ausente, estudiante := "s" }]
  have h3 := h.2.2 (1, [(Estado.ausente, 0), (Estado.presente, 1)])
    (by decide) (Estado.ausente, 0) (by decide)
  exact ⟨h.1 (by decide), h3.1, h3.2⟩

/-- C5: every student in the §4.5 output has attendance percentage below 75,
the output is non-decreasing in attendance percentage, and the sort is
stable — two retained students with equal percentages keep their relative
order from the pre-sort (grouping-order) list. -/
theorem c5_risk_output_filtered_sorted (rows : List RowPred) :
    (∀ s ∈ (prediccionDesercion rows).estudiantes_en_riesgo,
        s.porcentaje_asistencia < 75)
      ∧ (prediccionDesercion rows).estudiantes_en_riesgo.Pairwise
        (fun a b => a.porcentaje_asistencia ≤ b.porcentaje_asistencia)
      ∧ (∀ a b : EstudianteRiesgo,
          a.porcentaje_asistencia = b.porcentaje_asistencia →
          List.Sublist [a, b] (retenidosDe rows) →
          List.Sublist [etiqueta a, etiqueta b]
            ((prediccionDesercion rows).estudiantes_en_riesgo)) := by
  refine ⟨?_, ?_, ?_⟩
  · intro s hs
    obtain ⟨k, hk, rfl, hlt⟩ := mem_prediccion_exists hs
    simpa [etiqueta_pct] using hlt
  · show (List.map etiqueta _).Pairwise _
    rw [List.pairwise_map]
    haveI : IsTotal EstudianteRiesgo
        (fun a b => a.porcentaje_asistencia ≤ b.porcentaje_asistencia) :=
      ⟨fun a b => le_total _ _⟩
    haveI : IsTrans EstudianteRiesgo
        (fun a b => a.porcentaje_asistencia ≤ b.porcentaje_asistencia) :=
      ⟨fun a b c hab hbc => le_trans hab hbc⟩
    have hs := List.sorted_insertionSort
      (fun a b : EstudianteRiesgo =>
        a.porcentaje_asistencia ≤ b.porcentaje_asistencia)
      (retenidosDe rows)
    exact hs.imp (fun h => h)
  · intro a b hab hsub
    show List.Sublist _ (List.map etiqueta _)
    have h1 : List.Sublist [a, b] (List.insertionSort
        (fun a b : EstudianteRiesgo =>
          a.porcentaje_asistencia ≤ b.porcentaje_asistencia)
        (retenidosDe rows)) :=
      List.sublist_insertionSort (List.pairwise_pair.mpr (le_of_eq hab)) hsub
    exact h1.map etiqueta

/-- C5 witness: with two tied students (both 0%), the percentage of the first
is below 75 and the pair keeps its original order in the output. -/
theorem c5_witness :
    (etiqueta { estudiante_id := 1, nombre_usuario := "a", email := "a"
                ausencias := 1, total_clases := 1, porcentaje_asistencia := 0
                nivel_riesgo := none }).porcentaje_asistencia < 75
      ∧ List.Sublist
        [etiqueta { estudiante_id := 1, nombre_usuario := "a", email := "a"
                    ausencias := 1, total_clases := 1
                    porcentaje_asistencia := 0, nivel_riesgo := none },
         etiqueta { estudiante_id := 2, nombre_usuario := "b", email := "b"
                    ausencias := 1, total_clases := 1
                    porcentaje_asistencia := 0, nivel_riesgo := none }]
        ((prediccionDesercion
            [{ estudiante_id := 1, nombre_usuario := "a", email := "a"
               estado := .ausente },
             { estudiante_id := 2, nombre_usuario := "b", email := "b"
               estado := .ausente }]).estudiantes_en_riesgo) := by
  have h := c5_risk_output_filtered_sorted
    [{ estudiante_id := 1, nombre_usuario := "a", email := "a"
       estado := .ausente },
     { estudiante_id := 2, nombre_usuario := "b", email := "b"
       estado := .ausente }]
  refine ⟨h.1 _ (by decide), h.2.2 _ _ rfl (by decide)⟩

/-- C6: no entry of the §4.5 output is ever assigned the `BAJO` (LOW) risk
bucket — the `< 75` filter precedes the classification whose top bucket is
`(75, 100]`. -/
theorem c6_low_bucket_unreachable (rows : List RowPred) :
    ∀ s ∈ (prediccionDesercion rows).estudiantes_en_riesgo,
      s.nivel_riesgo ≠ some .bajo := by
  intro s hs
  obtain ⟨k, hk, rfl, hlt⟩ := mem_prediccion_exists hs
  rw [etiqueta_nivel]
  exact nivelRiesgo_ne_bajo hlt

/-- C6 witness: the single at-risk student of a concrete run is not labelled
`BAJO`. -/
theorem c6_low_bucket_unreachable_witness :
    (etiqueta { estudiante_id := 1, nombre_usuario := "n", email := "e"
                ausencias := 1, total_clases := 1, porcentaje_asistencia := 0
                nivel_riesgo := none }).nivel_riesgo ≠ some .bajo :=
  c6_low_bucket_unreachable
    [{ estudiante_id := 1, nombre_usuario := "n", email := "e"
       estado := .ausente }] _ (by decide)

/-- C10: a student whose key occurs in the window and whose attendance
percentage is exactly 0 is retained into the §4.5 output (0 < 75) but the
left-open `pd.cut` bins assign no bucket, so the entry carries a null risk
level rather than `CRITICO`. -/
theorem c10_zero_pct_null_bucket (rows : List RowPred) (k : PredKey)
    (hk : k ∈ clavesDe rows)
    (h0 : (statsDeKey rows k).porcentaje_asistencia = 0) :
    etiqueta (statsDeKey rows k)
        ∈ (prediccionDesercion rows).estudiantes_en_riesgo
      ∧ (etiqueta (statsDeKey rows k)).nivel_riesgo = none := by
  constructor
  · show _ ∈ List.map etiqueta _
    apply List.mem_map_of_mem
    rw [List.mem_insertionSort]
    unfold retenidosDe
    rw [List.mem_filter]
    refine ⟨List.mem_map_of_mem _ hk, ?_⟩
    rw [h0]
    decide
  · rw [etiqueta_nivel, h0, nivelRiesgo_zero]

/-- C10 witness: a student with one `JUSTIFICADO` event has percentage 0,
appears in the output, and gets no risk bucket. -/
theorem c10_zero_pct_null_bucket_witness :
    etiqueta (statsDeKey
        [{ estudiante_id := 1, nombre_usuario := "n", email := "e"
           estado := .justificado }]
        { estudiante_id := 1, nombre_usuario := "n", email := "e" })
        ∈ (prediccionDesercion
          [{ estudiante_id := 1, nombre_usuario := "n", email := "e"
             estado := .justificado }]).estudiantes_en_riesgo
      ∧ (etiqueta (statsDeKey
          [{ estudiante_id := 1, nombre_usuario := "n", email := "e"
             estado := .justificado }]
          { estudiante_id := 1, nombre_usuario := "n", email := "e" })
        ).nivel_riesgo = none :=
  c10_zero_pct_null_bucket
    [{ estudiante_id := 1, nombre_usuario := "n", email := "e"
       estado := .justificado }]
    { estudiante_id := 1, nombre_usuario := "n", email := "e" }
    (by decide) (by decide)

/-- C4: every attendance percentage reported by the operations — per subject
in §4.1, per student in §4.2, overall and per subject in §4.3, per group in
§4.4, per student in §4.5 — lies in `[0, 100]` and equals the §3 formula
`round(attended/total*100, 2)` over the events of its scope (with value `0` when
the scope has zero events), where attended counts `PRESENTE`/`TARDANZA`
events. -/
theorem c4_percentage_invariant :
    (∀ rows : List RowGeneral,
      ∀ mp ∈ (analisisAsistenciaGeneral rows).asistencia_por_materia,
        mp.2 = pctSpec
            (rows.countP (fun r => r.materia == mp.1 && asistio r.estado))
            (rows.countP (fun r => r.materia == mp.1))
          ∧ 0 ≤ mp.2 ∧ mp.2 ≤ 100)
    ∧ (∀ (rows : List RowGrupo) es ts,
        analisisAsistenciaGrupo rows = .datos es ts →
        ∀ sp ∈ es,
          sp.2.porcentaje_asistencia = pctSpec
              (rows.countP (fun r => r.estudiante == sp.1 && asistio r.estado))
              (rows.countP (fun r => r.estudiante == sp.1))
            ∧ 0 ≤ sp.2.porcentaje_asistencia
            ∧ sp.2.porcentaje_asistencia ≤ 100)
    ∧ (∀ (rows : List RowEstudiante) st pm,
        analisisAsistenciaEstudiante rows = .datos st pm →
        (st.porcentaje_asistencia = pctSpec
            (rows.countP (fun r => asistio r.estado)) rows.length
          ∧ 0 ≤ st.porcentaje_asistencia ∧ st.porcentaje_asistencia ≤ 100)
        ∧ ∀ mp ∈ pm,
            mp.2.porcentaje = pctSpec
                (rows.countP (fun r => r.materia == mp.1 && asistio r.estado))
                (rows.countP (fun r => r.materia == mp.1))
              ∧ 0 ≤ mp.2.porcentaje ∧ mp.2.porcentaje ≤ 100)
    ∧ (∀ (grupos : List Grupo) (eventos : List (ℕ × Estado)),
        ∀ gr ∈ (reporteProfesor grupos eventos).grupos,
          gr.porcentaje_asistencia = pctSpec
              (eventos.countP (fun ev => ev.1 == gr.grupo_id && asistio ev.2))
              (eventos.countP (fun ev => ev.1 == gr.grupo_id))
            ∧ 0 ≤ gr.porcentaje_asistencia ∧ gr.porcentaje_asistencia ≤ 100)
    ∧ (∀ rows : List RowPred,
        ∀ s ∈ (prediccionDesercion rows).estudiantes_en_riesgo,
          s.porcentaje_asistencia = pctSpec
              (rows.countP (fun r =>
                r.key == { estudiante_id := s.estudiante_id
                           nombre_usuario := s.nombre_usuario
                           email := s.email } && asistio r.estado))
              (rows.countP (fun r =>
                r.key == { estudiante_id := s.estudiante_id
                           nombre_usuario := s.nombre_usuario
                           email := s.email }))
            ∧ 0 ≤ s.porcentaje_asistencia
            ∧ s.porcentaje_asistencia ≤ 100) := by
  refine ⟨?_, ?_, ?_, ?_, ?_⟩
  · intro rows mp hmp
    have hfield : (analisisAsistenciaGeneral rows).asistencia_por_materia
        = asistenciaPorMateria rows := rfl
    rw [hfield] at hmp
    unfold asistenciaPorMateria at hmp
    rw [List.mem_map] at hmp
    obtain ⟨m, hm, rfl⟩ := hmp
    have hc := codePct_core rows
      (fun r => r.materia == m) (fun r => asistio r.estado)
    exact ⟨hc.1, hc.2.1, hc.2.2⟩
  · intro rows es ts h sp hsp
    unfold analisisAsistenciaGrupo at h
    by_cases he : rows.isEmpty
    · rw [if_pos he] at h
      simp at h
    · rw [if_neg he] at h
      injection h with h1 h2
      subst h1
      unfold estadisticasEstudiantes at hsp
      rw [List.mem_map] at hsp
      obtain ⟨s, hs, rfl⟩ := hsp
      show (estuStatsDe _).porcentaje_asistencia = _
        ∧ 0 ≤ (estuStatsDe _).porcentaje_asistencia
        ∧ (estuStatsDe _).porcentaje_asistencia ≤ 100
      rw [estuStatsDe_pct, List.countP_map, List.length_map]
      have hc := codePct_core rows
        (fun r => r.estudiante == s) (fun r => asistio r.estado)
      exact ⟨hc.1, hc.2.1, hc.2.2⟩
  · intro rows st pm h
    unfold analisisAsistenciaEstudiante at h
    by_cases he : rows.isEmpty
    · rw [if_pos he] at h
      simp at h
    · rw [if_neg he] at h
      injection h with h1 h2
      subst h1
      subst h2
      constructor
      · rw [estuStatsDe_pct, List.countP_map, List.length_map]
        refine ⟨codePct_eq_pctSpec _ _, codePct_nonneg _ _,
          codePct_le_100 (List.countP_le_length _)⟩
      · intro mp hmp
        unfold porMateria at hmp
        rw [List.mem_map] at hmp
        obtain ⟨m, hm, rfl⟩ := hmp
        have hc := codePct_core rows
          (fun r => r.materia == m) (fun r => asistio r.estado)
        exact ⟨hc.1, hc.2.1, hc.2.2⟩
  · intro grupos eventos gr hgr
    have hfield : (reporteProfesor grupos eventos).grupos
        = grupos.filterMap (reporteGrupo eventos) := rfl
    rw [hfield] at hgr
    rw [List.mem_filterMap] at hgr
    obtain ⟨g, hg, hsome⟩ := hgr
    simp only [reporteGrupo] at hsome
    by_cases he :
        ((eventos.filter (fun ev => ev.1 == g.id)).map (fun ev => ev.2)).isEmpty
    · rw [if_pos he] at hsome
      exact Option.noConfusion hsome
    · rw [if_neg he] at hsome
      injection hsome with hrec
      subst hrec
      have hlen :
          0 < ((eventos.filter (fun ev => ev.1 == g.id)).map
            (fun ev => ev.2)).length := by
        rw [List.length_pos]
        intro hnil
        rw [hnil] at he
        exact he rfl
      dsimp only
      rw [if_pos hlen, lookupCount_conteoEstados, lookupCount_conteoEstados,
        ← countP_asistio, List.countP_map, List.length_map]
      have hc := codePct_core eventos
        (fun ev => ev.1 == g.id) (fun ev => asistio ev.2)
      exact ⟨hc.1, hc.2.1, hc.2.2⟩
  · intro rows s hs
    obtain ⟨k, hk, rfl, hlt⟩ := mem_prediccion_exists hs
    show (statsDeKey rows k).porcentaje_asistencia = _
      ∧ 0 ≤ (statsDeKey rows k).porcentaje_asistencia
      ∧ (statsDeKey rows k).porcentaje_asistencia ≤ 100
    have hpct : (statsDeKey rows k).porcentaje_asistencia
        = codePct (((rows.filter (fun r => r.key == k)).map
            (fun r => r.estado)).countP asistio)
          ((rows.filter (fun r => r.key == k)).map (fun r => r.estado)).length :=
      rfl
    rw [hpct, List.countP_map, List.length_map]
    have hc := codePct_core rows
      (fun r => r.key == k) (fun r => asistio r.estado)
    exact ⟨hc.1, hc.2.1, hc.2.2⟩

/-- C4 witness: in a one-row window with one `PRESENTE` event for subject
`M`, the reported subject percentage is `100`, which matches the formula at
`attended = total = 1` and lies in `[0, 100]`. -/
theorem c4_percentage_invariant_witness :
    ((100 : ℚ) = pctSpec 1 1) ∧ (0 : ℚ) ≤ (100 : ℚ) ∧ (100 : ℚ) ≤ 100 :=
  c4_percentage_invariant.1 [{ fecha := 0, estado := .presente, materia := "M" }]
    ("M", (100 : ℚ)) (by decide)

end AnalyticsService
